import Mathlib

/-!
Shallow embedding of the mode-driven transform animation core of a
React Three Fiber holiday scene, and proofs about it.

The embedded code:
* `src/components/VoxelTree.tsx` — per-voxel target selection, the
  per-frame interpolation (`useFrame` body), the fountain override and
  the per-mode displayed scale;
* `src/components/Scene.tsx` — the `AnimatedOrnament` per-frame
  interpolation, the ornament target/scale selection and fountain
  override, the golden-angle TREE placement generator, and the timed
  mode orchestrator (`useEffect` over `[mode, internalMode]`).

Positions, scales and time steps are modelled over `ℚ` (JS numbers on
the control path, embedded exactly); quaternion components and the
trigonometric generator quantities live in `ℝ`.
-/

namespace HolidayScene

/-- Application mode, `src/types` / `AppMode` in the source. -/
inductive AppMode
  | INITIAL
  | SCATTERED
  | TREE
deriving DecidableEq, Repr

open AppMode

/-- THREE.MathUtils.lerp: `x + ( y - x ) * t`. -/
def lerp (x y t : ℚ) : ℚ := x + (y - x) * t

/-- A 3-vector of rationals, embedding THREE.Vector3 where the program
only does affine arithmetic on it. -/
structure Vec3 where
  x : ℚ
  y : ℚ
  z : ℚ
deriving DecidableEq, Repr

/-- THREE.Vector3.lerp: componentwise `this += (v - this) * alpha`. -/
def Vec3.lerp (v target : Vec3) (t : ℚ) : Vec3 :=
  ⟨HolidayScene.lerp v.x target.x t, HolidayScene.lerp v.y target.y t,
   HolidayScene.lerp v.z target.z t⟩

/-! ## VoxelTree per-instance interpolation (`VoxelTree.tsx`, `useFrame`) -/

/-- Animation speed of the voxels, `const step = Math.min(1, delta * 2.5)`
(`VoxelTree.tsx:140`). -/
def voxelStep (delta : ℚ) : ℚ := min 1 (delta * 2.5)

/-- Per-voxel fixed targets (`instancesData`): positions for the three
modes.  Orientation targets are carried separately (they live in `ℝ`). -/
structure VoxelPosTargets where
  treePos : Vec3
  scatterPos : Vec3
  initialPos : Vec3
deriving DecidableEq, Repr

/-- Target-position selection of the voxel `useFrame` body
(`VoxelTree.tsx:143-152`): default `treePos`, overridden for
SCATTERED and INITIAL. -/
def voxelTargetPos (tg : VoxelPosTargets) (m : AppMode) : Vec3 :=
  if m = SCATTERED then tg.scatterPos
  else if m = INITIAL then tg.initialPos
  else tg.treePos

/-- One tick of the voxel position update (`VoxelTree.tsx:154-168`):
the fountain override applies when the mode is SCATTERED and the current
height is below `-2`; it lerps X and Z toward `0` with `step * 0.5` and Y
toward the target height with the full step.  Otherwise the position lerps
toward the selected target with the full step. -/
def voxelTickPos (m : AppMode) (tg : VoxelPosTargets) (cur : Vec3) (delta : ℚ) : Vec3 :=
  let step := voxelStep delta
  let targetPos := voxelTargetPos tg m
  if m = SCATTERED ∧ cur.y < -2 then
    ⟨lerp cur.x 0 (step * 0.5), lerp cur.y targetPos.y step, lerp cur.z 0 (step * 0.5)⟩
  else
    cur.lerp targetPos step

/-- Per-mode voxel scale target
(`VoxelTree.tsx:176`): `mode === 'INITIAL' ? 0.2 : (mode === 'TREE' ? 1 : 0.8)`. -/
def voxelScaleTarget (m : AppMode) : ℚ :=
  if m = INITIAL then 0.2 else if m = TREE then 1 else 0.8

/-- Displayed voxel scale after one tick (`VoxelTree.tsx:179`,
`dummy.scale.setScalar(targetScale)`): the scale is set directly to the
per-mode target; the current scale `sc` and the time step `delta` are not
consulted. -/
def voxelTickScale (m : AppMode) (_sc : ℚ) (_delta : ℚ) : ℚ :=
  voxelScaleTarget m

/-- Modelled from the spec (§4.2 Scale): the spec asserts the displayed
scale is *lerped* toward the per-mode target by `step` each tick for both
voxels and ornaments.  This definition follows the spec's words for the
voxel class, to be compared with `voxelTickScale` taken from the source. -/
def specVoxelScaleLerped (sc : ℚ) (m : AppMode) (delta : ℚ) : ℚ :=
  lerp sc (voxelScaleTarget m) (voxelStep delta)

/-! ## AnimatedOrnament interpolation (`Scene.tsx`, `AnimatedOrnament`) -/

/-- Fixed per-ornament configuration fields used by the per-frame update
(`OrnamentConfig` in `Scene.tsx`), restricted to the affine data. -/
structure OrnConfig where
  treePos : Vec3
  scatterPos : Vec3
  initialPos : Vec3
  scale : ℚ
deriving DecidableEq, Repr

/-- Ornament animation speed, `const step = Math.min(1, delta * 3)`
(`Scene.tsx:73`). -/
def ornStep (delta : ℚ) : ℚ := min 1 (delta * 3)

/-- Ornament target-position selection (`Scene.tsx:75-87`): default
`treePos`, INITIAL overrides to `initialPos`, SCATTERED to `scatterPos`. -/
def ornTargetPos (m : AppMode) (cfg : OrnConfig) : Vec3 :=
  if m = INITIAL then cfg.initialPos
  else if m = SCATTERED then cfg.scatterPos
  else cfg.treePos

/-- Ornament scale-target selection (`Scene.tsx:77-87`): default
`config.scale`, INITIAL overrides to `0.2`, SCATTERED re-selects
`config.scale`. -/
def ornScaleTarget (m : AppMode) (cfg : OrnConfig) : ℚ :=
  if m = INITIAL then 0.2 else cfg.scale

/-- One tick of the ornament position update (`Scene.tsx:89-106`): the
fountain override applies when the mode is SCATTERED and the current
height is below `-1`; otherwise a plain 3-axis lerp to the selected
target. -/
def ornTickPos (m : AppMode) (cfg : OrnConfig) (cur : Vec3) (delta : ℚ) : Vec3 :=
  let step := ornStep delta
  let targetPos := ornTargetPos m cfg
  if m = SCATTERED ∧ cur.y < -1 then
    ⟨lerp cur.x 0 (step * 0.5), lerp cur.y targetPos.y step, lerp cur.z 0 (step * 0.5)⟩
  else
    cur.lerp targetPos step

/-- One tick of the ornament displayed scale (`Scene.tsx:112-114`):
`newScale = lerp(currentScale, targetScale, step)`. -/
def ornTickScale (m : AppMode) (cfg : OrnConfig) (sc : ℚ) (delta : ℚ) : ℚ :=
  lerp sc (ornScaleTarget m cfg) (ornStep delta)

/-! ## Quaternions and slerp (THREE.Quaternion, as called from both
`useFrame` bodies) -/

/-- A quaternion with real components, embedding THREE.Quaternion. -/
structure Quat where
  x : ℝ
  y : ℝ
  z : ℝ
  w : ℝ

/-- JavaScript Number.EPSILON, `2^-52`. -/
noncomputable def jsEpsilon : ℝ := 2 ^ (-52 : ℤ)

/-- JavaScript Math.atan2. -/
noncomputable def atan2 (y x : ℝ) : ℝ :=
  if 0 < x then Real.arctan (y / x)
  else if x < 0 then
    (if 0 ≤ y then Real.arctan (y / x) + Real.pi else Real.arctan (y / x) - Real.pi)
  else (if 0 < y then Real.pi / 2 else if y < 0 then -(Real.pi / 2) else 0)

/-- THREE.Quaternion.length. -/
noncomputable def Quat.length (q : Quat) : ℝ :=
  Real.sqrt (q.x * q.x + q.y * q.y + q.z * q.z + q.w * q.w)

/-- THREE.Quaternion.normalize: divide by the length, or produce the
identity quaternion when the length is `0`. -/
noncomputable def Quat.normalize (q : Quat) : Quat :=
  let l := q.length
  if l = 0 then ⟨0, 0, 0, 1⟩ else ⟨q.x / l, q.y / l, q.z / l, q.w / l⟩

/-- THREE.Quaternion.slerp (this = `q`, toward `qb`, by `t`), translated
branch for branch: the `t === 0` and `t === 1` early returns, the
shortest-path sign flip, the aligned (`cosHalfTheta >= 1`) early return,
the near-parallel normalized-lerp fallback, and the general
trigonometric path. -/
noncomputable def Quat.slerp (q qb : Quat) (t : ℝ) : Quat :=
  if t = 0 then q
  else if t = 1 then qb
  else
    let cosHalfTheta0 : ℝ := q.w * qb.w + q.x * qb.x + q.y * qb.y + q.z * qb.z
    let s1 : Quat := if cosHalfTheta0 < 0 then ⟨-qb.x, -qb.y, -qb.z, -qb.w⟩ else qb
    let cosHalfTheta : ℝ := if cosHalfTheta0 < 0 then -cosHalfTheta0 else cosHalfTheta0
    if 1 ≤ cosHalfTheta then q
    else
      let sqrSinHalfTheta := 1 - cosHalfTheta * cosHalfTheta
      if sqrSinHalfTheta ≤ jsEpsilon then
        Quat.normalize
          ⟨(1 - t) * q.x + t * s1.x, (1 - t) * q.y + t * s1.y,
           (1 - t) * q.z + t * s1.z, (1 - t) * q.w + t * s1.w⟩
      else
        let sinHalfTheta := Real.sqrt sqrSinHalfTheta
        let halfTheta := atan2 sinHalfTheta cosHalfTheta
        let ratioA := Real.sin ((1 - t) * halfTheta) / sinHalfTheta
        let ratioB := Real.sin (t * halfTheta) / sinHalfTheta
        ⟨q.x * ratioA + s1.x * ratioB, q.y * ratioA + s1.y * ratioB,
         q.z * ratioA + s1.z * ratioB, q.w * ratioA + s1.w * ratioB⟩

/-- Intrinsic XYZ Euler angles (THREE.Euler with the default order). -/
structure EulerAngles where
  x : ℝ
  y : ℝ
  z : ℝ

/-- THREE.Quaternion.setFromEuler for the default XYZ order. -/
noncomputable def Quat.setFromEuler (e : EulerAngles) : Quat :=
  let c1 := Real.cos (e.x / 2)
  let c2 := Real.cos (e.y / 2)
  let c3 := Real.cos (e.z / 2)
  let s1 := Real.sin (e.x / 2)
  let s2 := Real.sin (e.y / 2)
  let s3 := Real.sin (e.z / 2)
  ⟨s1 * c2 * c3 + c1 * s2 * s3, c1 * s2 * c3 - s1 * c2 * s3,
   c1 * c2 * s3 + s1 * s2 * c3, c1 * c2 * c3 - s1 * s2 * s3⟩

/-- Per-voxel fixed orientation targets (`instancesData`):
`treeRot` is the identity, the other two are randomized; all three are
modelled as arbitrary quaternions. -/
structure VoxelRotTargets where
  treeRot : Quat
  scatterRot : Quat
  initialRot : Quat

/-- Target-orientation selection of the voxel `useFrame` body
(`VoxelTree.tsx:144-152`). -/
def voxelTargetRot (tg : VoxelRotTargets) (m : AppMode) : Quat :=
  if m = SCATTERED then tg.scatterRot
  else if m = INITIAL then tg.initialRot
  else tg.treeRot

/-- One tick of the voxel orientation update (`VoxelTree.tsx:171`):
`currentQuaternions[i].slerp(targetRot, step)`. -/
noncomputable def voxelTickRot (m : AppMode) (tg : VoxelRotTargets) (q : Quat) (delta : ℚ) : Quat :=
  Quat.slerp q (voxelTargetRot tg m) ((voxelStep delta : ℚ) : ℝ)

/-- Fixed per-ornament orientation targets (Euler angles from
`OrnamentConfig`). -/
structure OrnRotConfig where
  treeRotE : EulerAngles
  scatterRotE : EulerAngles

/-- Ornament target-orientation selection (`Scene.tsx:76-87`): default
`treeRot`, both INITIAL and SCATTERED override to `scatterRot`. -/
def ornTargetRotE (m : AppMode) (cfg : OrnRotConfig) : EulerAngles :=
  if m = INITIAL then cfg.scatterRotE
  else if m = SCATTERED then cfg.scatterRotE
  else cfg.treeRotE

/-- One tick of the ornament orientation update (`Scene.tsx:108-110`):
`targetQ = new Quaternion().setFromEuler(targetRot); curQ.slerp(targetQ, step)`. -/
noncomputable def ornTickRot (m : AppMode) (cfg : OrnRotConfig) (q : Quat) (delta : ℚ) : Quat :=
  Quat.slerp q (Quat.setFromEuler (ornTargetRotE m cfg)) ((ornStep delta : ℚ) : ℝ)

/-! ## Golden-angle TREE placement generator (`Scene.tsx:177-281`) -/

/-- Number of generated ornament slots, `const count = 90`. -/
def ornCount : ℕ := 90

/-- The golden angle, `Math.PI * (3 - Math.sqrt(5))` (`Scene.tsx:193`). -/
noncomputable def goldenAngle : ℝ := Real.pi * (3 - Real.sqrt 5)

/-- Placement angle of ornament `i`, `const theta = i * goldenAngle`
(`Scene.tsx:219`). -/
noncomputable def ornTheta (i : ℕ) : ℝ := (i : ℝ) * goldenAngle

/-- Placement height of ornament `i` (`Scene.tsx:210-211`):
`hProgress = i / count; y = -5 + hProgress * 12`. -/
noncomputable def ornY (i : ℕ) : ℝ := -5 + ((i : ℝ) / (ornCount : ℝ)) * 12

/-- Cone radius at height `y` (`Scene.tsx:214-215`):
`normalizedH = (y + 6) / 16; coneRadius = 6.8 * (1 - max(0, normalizedH))`. -/
noncomputable def coneRadiusAt (y : ℝ) : ℝ := 6.8 * (1 - max 0 ((y + 6) / 16))

/-- Placement radius of ornament `i` (`Scene.tsx:216`):
`radius = coneRadius + 0.6`. -/
noncomputable def ornRadius (i : ℕ) : ℝ := coneRadiusAt (ornY i) + 0.6

/-- Discrete ornament types (`OrnamentConfig.type` in `Scene.tsx`). -/
inductive OrnType
  | camera
  | gift
  | star
  | snowman
  | topper
  | snowflake
  | goldTree
  | redBulb
  | yellowBulb
deriving DecidableEq, Repr

/-- Per-type yaw adjustment of the TREE orientation (`Scene.tsx:233-235`):
star, snowflake and goldTree get `treeRot.y += Math.PI / 2`. -/
noncomputable def ornYawAdjust (t : OrnType) : ℝ :=
  if t = OrnType.star ∨ t = OrnType.snowflake ∨ t = OrnType.goldTree
  then Real.pi / 2 else 0

/-- TREE yaw of ornament `i` of type `t` (`Scene.tsx:227` plus the
per-type adjustment): `treeRot = Euler(0, -theta, 0)`, then the
adjustment is added to the Y component. -/
noncomputable def ornTreeYaw (i : ℕ) (t : OrnType) : ℝ :=
  -(ornTheta i) + ornYawAdjust t

/-- Per-type pitch adjustment (`Scene.tsx:236-238`): bulbs get
`treeRot.x -= Math.PI / 4`. -/
noncomputable def ornPitchAdjust (t : OrnType) : ℝ :=
  if t = OrnType.redBulb ∨ t = OrnType.yellowBulb then -(Real.pi / 4) else 0

/-! ## Mode Orchestrator (`Scene.tsx:135-174`)

The orchestrator is the `Scene` component's state pair
`(internalMode, isBoxOpen)` together with the `useEffect` that runs on
every change of `mode` (the requested mode) or `internalMode`, plus the
single cancellable `setTimeout`.  The embedding is a labelled transition
system:

* `runEffect` is the stabilized result of running the effect body (and,
  when the body itself changes `internalMode`, its immediate re-run,
  which clears the freshly armed timer and arms an identical one — the
  net result is the same record);
* a `setReq` step models the requested mode changing (the effect runs
  synchronously in the model);
* an `advance` step lets wall-clock time pass (a timer may fire at any
  moment at or after its deadline, so passing a deadline without firing
  models timer latency);
* a `fire` step delivers a due timer callback; a fired
  `setInternalMode` re-runs the effect (because `internalMode` is in
  the dependency list), a fired `setIsBoxOpen(false)` does not.

The effect's cleanup (`clearTimeout`) is modelled by each `runEffect`
replacing the pending timer outright. -/

/-- Actions a pending `setTimeout` can carry. -/
inductive TimerAct
  | setInternal (m : AppMode)
  | closeLid
deriving DecidableEq, Repr

/-- Orchestrator state: requested mode (the `mode` prop), `internalMode`,
`isBoxOpen` (lid flag), pending timer as an absolute deadline in
milliseconds paired with its action, and the current time. -/
structure OState where
  req : AppMode
  internal : AppMode
  lid : Bool
  timer : Option (ℕ × TimerAct)
  now : ℕ
deriving DecidableEq, Repr

/-- The `useEffect` body (`Scene.tsx:143-174`), stabilized over its own
re-run on `internalMode` changes. -/
def runEffect (s : OState) : OState :=
  if s.req = INITIAL then
    { s with internal := INITIAL, timer := some (s.now + 500, TimerAct.closeLid) }
  else if s.internal = INITIAL then
    { s with lid := true, timer := some (s.now + 350, TimerAct.setInternal s.req) }
  else
    { s with internal := s.req, lid := true, timer := none }

/-- Delivery of a due timer callback. -/
def applyTimer (s : OState) (a : TimerAct) : OState :=
  match a with
  | TimerAct.closeLid => { s with lid := false, timer := none }
  | TimerAct.setInternal m => runEffect { s with internal := m, timer := none }

/-- One orchestrator transition. -/
inductive OStep : OState → OState → Prop
  | setReq (s : OState) (m : AppMode) (h : m ≠ s.req) :
      OStep s (runEffect { s with req := m })
  | advance (s : OState) (dt : ℕ) :
      OStep s { s with now := s.now + dt }
  | fire (s : OState) (d : ℕ) (a : TimerAct)
      (h1 : s.timer = some (d, a)) (h2 : d ≤ s.now) :
      OStep s (applyTimer s a)

/-- Zero or more orchestrator transitions. -/
def OReach (s u : OState) : Prop := Relation.ReflTransGen OStep s u

/-- Orchestrator transitions with no further requested-mode change:
only time passing and timers firing. -/
inductive TimerOnlyStep : OState → OState → Prop
  | advance (s : OState) (dt : ℕ) :
      TimerOnlyStep s { s with now := s.now + dt }
  | fire (s : OState) (d : ℕ) (a : TimerAct)
      (h1 : s.timer = some (d, a)) (h2 : d ≤ s.now) :
      TimerOnlyStep s (applyTimer s a)

/-- Zero or more request-free orchestrator transitions. -/
def TimerOnlyReach (s u : OState) : Prop := Relation.ReflTransGen TimerOnlyStep s u

/-- Session-start state (`Scene.tsx:140-141`): requested mode INITIAL,
internal mode INITIAL, lid closed. -/
def initState : OState := ⟨INITIAL, INITIAL, false, none, 0⟩

/-! ## Concrete fixtures used by witnesses and counterexamples -/

/-- A concrete voxel position-target triple. -/
def tgC : VoxelPosTargets := ⟨⟨0, 0, 0⟩, ⟨10, 5, 0⟩, ⟨0, 0, 0⟩⟩

/-- A concrete voxel orientation-target triple (all identity). -/
noncomputable def rtgC : VoxelRotTargets :=
  ⟨⟨0, 0, 0, 1⟩, ⟨0, 0, 0, 1⟩, ⟨0, 0, 0, 1⟩⟩

/-- A concrete ornament configuration. -/
def cfgC : OrnConfig := ⟨⟨0, 6, 0⟩, ⟨8, 9, 0⟩, ⟨0, -5, 0⟩, 1⟩

/-- A concrete ornament orientation configuration. -/
noncomputable def rcfgC : OrnRotConfig := ⟨⟨0, 0, 0⟩, ⟨0, 0, 0⟩⟩

/-- A concrete quaternion (the identity). -/
noncomputable def qC : Quat := ⟨0, 0, 0, 1⟩

/-- Demo run, step 1: request SCATTERED from the session-start state. -/
def demoS1 : OState := runEffect { initState with req := SCATTERED }

/-- Demo run, step 2: let 350 ms pass. -/
def demoS2 : OState := { demoS1 with now := demoS1.now + 350 }

/-- Demo run, step 3: the armed 350 ms timer fires. -/
def demoS3 : OState := applyTimer demoS2 (TimerAct.setInternal SCATTERED)

/-! ## Basic interpolation lemmas -/

theorem lerp_zero (a b : ℚ) : lerp a b 0 = a := by simp [lerp]

theorem lerp_one (a b : ℚ) : lerp a b 1 = b := by simp [lerp]

theorem vec3_lerp_zero (v t : Vec3) : v.lerp t 0 = v := by
  simp [Vec3.lerp, HolidayScene.lerp_zero]

theorem vec3_lerp_one (v t : Vec3) : v.lerp t 1 = t := by
  simp [Vec3.lerp, HolidayScene.lerp_one]

theorem Quat.slerp_zero (q qb : Quat) : Quat.slerp q qb 0 = q := by
  simp [Quat.slerp]

theorem Quat.slerp_one (q qb : Quat) : Quat.slerp q qb 1 = qb := by
  simp [Quat.slerp]

theorem voxelStep_zero : voxelStep 0 = 0 := by norm_num [voxelStep]

theorem ornStep_zero : ornStep 0 = 0 := by norm_num [ornStep]

theorem voxelStep_snap (d : ℚ) (hd : 2/5 ≤ d) : voxelStep d = 1 := by
  have h : (1 : ℚ) ≤ d * 2.5 := by nlinarith
  simpa [voxelStep] using h

theorem ornStep_snap (d : ℚ) (hd : 1/3 ≤ d) : ornStep d = 1 := by
  have h : (1 : ℚ) ≤ d * 3 := by nlinarith
  simpa [ornStep] using h

theorem oreach_invariant {P : OState → Prop}
    (hP : ∀ a b, P a → OStep a b → P b) :
    ∀ {s u : OState}, OReach s u → P s → P u := by
  intro s u hr
  induction hr with
  | refl => exact fun h => h
  | tail _ h2 ih => exact fun h => hP _ _ (ih h) h2

theorem timerOnlyReach_invariant {P : OState → Prop}
    (hP : ∀ a b, P a → TimerOnlyStep a b → P b) :
    ∀ {s u : OState}, TimerOnlyReach s u → P s → P u := by
  intro s u hr
  induction hr with
  | refl => exact fun h => h
  | tail _ h2 ih => exact fun h => hP _ _ (ih h) h2

/-! ## Claims about the per-object interpolator -/

/-- Claim C10: a tick with `deltaTime = 0` is the identity on every
object's mutable interpolation state — current position, current
orientation and (for discrete ornaments) current scale — in both the
fountain branch and the standard branch, for every fixed internal mode. -/
theorem claim10_zero_delta_tick_identity :
    ∀ (m : AppMode) (ptg : VoxelPosTargets) (rtg : VoxelRotTargets) (cur : Vec3) (q : Quat)
      (cfg : OrnConfig) (rcfg : OrnRotConfig) (pos : Vec3) (oq : Quat) (sc : ℚ),
      voxelTickPos m ptg cur 0 = cur
      ∧ voxelTickRot m rtg q 0 = q
      ∧ ornTickPos m cfg pos 0 = pos
      ∧ ornTickRot m rcfg oq 0 = oq
      ∧ ornTickScale m cfg sc 0 = sc := by
  intro m ptg rtg cur q cfg rcfg pos oq sc
  refine ⟨?_, ?_, ?_, ?_, ?_⟩
  · simp only [voxelTickPos, voxelStep_zero]
    split_ifs <;> simp [Vec3.lerp, lerp]
  · simp [voxelTickRot, voxelStep_zero, Quat.slerp_zero]
  · simp only [ornTickPos, ornStep_zero]
    split_ifs <;> simp [Vec3.lerp, lerp]
  · simp [ornTickRot, ornStep_zero, Quat.slerp_zero]
  · simp [ornTickScale, ornStep_zero, lerp]

/-- Claim C1: at every tick the fountain override applies exactly when
the internal mode is SCATTERED and the current height is below the rim
threshold (`-2` for voxels, `-1` for ornaments); while it applies, X and
Z are lerped toward `0` with `step * 0.5` and Y toward the true SCATTERED
target's Y with the full step; in every other case all three coordinates
are lerped toward the selected target with the full step.  The condition
is re-evaluated from the current position on every tick (the update is a
pure function of the current state, with no latched flag). -/
theorem claim1_fountain_override :
    ∀ (m : AppMode) (tg : VoxelPosTargets) (cur : Vec3) (d : ℚ)
      (cfg : OrnConfig) (pos : Vec3),
      (m = SCATTERED ∧ cur.y < -2 →
        voxelTickPos m tg cur d =
          ⟨lerp cur.x 0 (voxelStep d * 0.5), lerp cur.y tg.scatterPos.y (voxelStep d),
           lerp cur.z 0 (voxelStep d * 0.5)⟩)
      ∧ (¬(m = SCATTERED ∧ cur.y < -2) →
        voxelTickPos m tg cur d = cur.lerp (voxelTargetPos tg m) (voxelStep d))
      ∧ (m = SCATTERED ∧ pos.y < -1 →
        ornTickPos m cfg pos d =
          ⟨lerp pos.x 0 (ornStep d * 0.5), lerp pos.y cfg.scatterPos.y (ornStep d),
           lerp pos.z 0 (ornStep d * 0.5)⟩)
      ∧ (¬(m = SCATTERED ∧ pos.y < -1) →
        ornTickPos m cfg pos d = pos.lerp (ornTargetPos m cfg) (ornStep d)) := by
  intro m tg cur d cfg pos
  refine ⟨?_, ?_, ?_, ?_⟩
  · rintro ⟨hm, hy⟩
    subst hm
    simp [voxelTickPos, voxelTargetPos, hy]
  · intro h
    simp only [voxelTickPos]
    rw [if_neg h]
  · rintro ⟨hm, hy⟩
    subst hm
    simp [ornTickPos, ornTargetPos, hy]
  · intro h
    simp only [ornTickPos]
    rw [if_neg h]

/-- Witness for C1: both branches at concrete inputs. -/
theorem claim1_fountain_override_witness :
    voxelTickPos SCATTERED tgC ⟨4, -3, 2⟩ (1/5) =
      ⟨lerp 4 0 (voxelStep (1/5) * 0.5), lerp (-3) tgC.scatterPos.y (voxelStep (1/5)),
       lerp 2 0 (voxelStep (1/5) * 0.5)⟩
    ∧ voxelTickPos TREE tgC ⟨4, -3, 2⟩ (1/5) =
      Vec3.lerp ⟨4, -3, 2⟩ (voxelTargetPos tgC TREE) (voxelStep (1/5)) := by
  constructor
  · exact (claim1_fountain_override SCATTERED tgC ⟨4, -3, 2⟩ (1/5) cfgC ⟨0, 0, 0⟩).1
      ⟨rfl, by norm_num⟩
  · exact (claim1_fountain_override TREE tgC ⟨4, -3, 2⟩ (1/5) cfgC ⟨0, 0, 0⟩).2.1
      (by simp)

/-- Claim C2 (amended): the per-tick scale target is selected from the
internal mode exactly as claimed (voxels: INITIAL → 0.2, SCATTERED → 0.8,
TREE → 1; ornaments: INITIAL → 0.2, otherwise the base scale), and the
displayed scale of a discrete ornament is lerped toward that target by
`step`; the displayed voxel scale, however, is set directly to the
target each tick — it does not depend on the previous scale at all. -/
theorem claim2_scale_selection :
    ∀ (m : AppMode) (cfg : OrnConfig) (sc sc' d : ℚ),
      ornTickScale m cfg sc d = lerp sc (ornScaleTarget m cfg) (ornStep d)
      ∧ ornScaleTarget INITIAL cfg = 0.2
      ∧ ornScaleTarget SCATTERED cfg = cfg.scale
      ∧ ornScaleTarget TREE cfg = cfg.scale
      ∧ voxelTickScale m sc d = voxelScaleTarget m
      ∧ voxelTickScale m sc' d = voxelTickScale m sc d
      ∧ voxelScaleTarget INITIAL = 0.2
      ∧ voxelScaleTarget SCATTERED = 0.8
      ∧ voxelScaleTarget TREE = 1 := by
  intro m cfg sc sc' d
  refine ⟨rfl, by simp [ornScaleTarget], by simp [ornScaleTarget], by simp [ornScaleTarget],
    rfl, rfl, by simp [voxelScaleTarget], by simp [voxelScaleTarget], by simp [voxelScaleTarget]⟩

/-- Counterexample to C2 as stated: at mode SCATTERED, previous scale
`0.2` and `deltaTime = 1/5` (step `1/2`), the voxel code displays `0.8`
(the bare target), not the `0.5` that per-tick lerping of the displayed
scale — what the claim asserts for voxels too — would give. -/
theorem claim2_counterexample :
    voxelTickScale SCATTERED 0.2 (1/5) ≠ specVoxelScaleLerped 0.2 SCATTERED (1/5) := by
  simp [voxelTickScale, specVoxelScaleLerped, voxelScaleTarget, voxelStep, lerp]
  norm_num

/-- Claim C3 (amended): for every `deltaTime ≥ 0` the interpolation
factor is `min(1, deltaTime × rate)` and lies in `[0, 1]`; for
`deltaTime ≥ 1/rate` a single tick snaps position, orientation and scale
exactly to the selected target in the standard branch, while in the
fountain branch Y snaps to the target height and orientation to the
target orientation but X and Z only move to half their current value. -/
theorem claim3_step_clamp (d : ℚ) (hd : 0 ≤ d) :
    (voxelStep d = min 1 (d * 2.5) ∧ 0 ≤ voxelStep d ∧ voxelStep d ≤ 1
      ∧ ornStep d = min 1 (d * 3) ∧ 0 ≤ ornStep d ∧ ornStep d ≤ 1)
    ∧ (2/5 ≤ d →
        ∀ (m : AppMode) (ptg : VoxelPosTargets) (rtg : VoxelRotTargets) (cur : Vec3) (q : Quat),
        (¬(m = SCATTERED ∧ cur.y < -2) → voxelTickPos m ptg cur d = voxelTargetPos ptg m)
        ∧ voxelTickRot m rtg q d = voxelTargetRot rtg m
        ∧ (cur.y < -2 →
            voxelTickPos SCATTERED ptg cur d = ⟨cur.x * (1/2), ptg.scatterPos.y, cur.z * (1/2)⟩))
    ∧ (1/3 ≤ d →
        ∀ (m : AppMode) (cfg : OrnConfig) (rcfg : OrnRotConfig) (pos : Vec3) (q : Quat) (sc : ℚ),
        (¬(m = SCATTERED ∧ pos.y < -1) → ornTickPos m cfg pos d = ornTargetPos m cfg)
        ∧ ornTickRot m rcfg q d = Quat.setFromEuler (ornTargetRotE m rcfg)
        ∧ ornTickScale m cfg sc d = ornScaleTarget m cfg) := by
  refine ⟨⟨rfl, ?_, min_le_left _ _, rfl, ?_, min_le_left _ _⟩, ?_, ?_⟩
  · exact le_min (by norm_num) (by nlinarith)
  · exact le_min (by norm_num) (by nlinarith)
  · intro hd2 m ptg rtg cur q
    have hs := voxelStep_snap d hd2
    refine ⟨?_, ?_, ?_⟩
    · intro hcond
      simp only [voxelTickPos]
      rw [if_neg hcond, hs, vec3_lerp_one]
    · simp [voxelTickRot, hs, Quat.slerp_one]
    · intro hy
      simp only [voxelTickPos]
      rw [if_pos ⟨by trivial, hy⟩, hs]
      simp only [voxelTargetPos, lerp, Vec3.mk.injEq]
      refine ⟨by ring, by simp, by ring⟩
  · intro hd3 m cfg rcfg pos q sc
    have hs := ornStep_snap d hd3
    refine ⟨?_, ?_, ?_⟩
    · intro hcond
      simp only [ornTickPos]
      rw [if_neg hcond, hs, vec3_lerp_one]
    · simp [ornTickRot, hs, Quat.slerp_one]
    · simp [ornTickScale, hs, lerp_one]

/-- Counterexample to C3 as stated: a voxel at `(4, -3, 2)` in mode
SCATTERED with `deltaTime = 2/5 = 1/rate` does not land on the selected
target — the fountain override halves X and Z instead. -/
theorem claim3_counterexample :
    voxelTickPos SCATTERED tgC ⟨4, -3, 2⟩ (2/5) ≠ voxelTargetPos tgC SCATTERED := by
  have h : voxelTickPos SCATTERED tgC ⟨4, -3, 2⟩ (2/5) = ⟨2, 5, 1⟩ := by
    simp only [voxelTickPos]
    rw [if_pos ⟨by trivial, by norm_num⟩]
    have hs : voxelStep (2/5) = 1 := by norm_num [voxelStep]
    rw [hs]
    simp only [voxelTargetPos, tgC, lerp, Vec3.mk.injEq]
    norm_num
  rw [h]
  simp [voxelTargetPos, tgC, Vec3.mk.injEq]

/-- Witness for C3 (amended): a standard-branch tick at
`deltaTime = 2/5` lands exactly on the selected target. -/
theorem claim3_step_clamp_witness :
    voxelTickPos TREE tgC ⟨4, -3, 2⟩ (2/5) = voxelTargetPos tgC TREE :=
  ((claim3_step_clamp (2/5) (by norm_num)).2.1 (by norm_num) TREE tgC rtgC ⟨4, -3, 2⟩ qC).1
    (by simp)

/-- Squared-distance contraction of the fountain's half-step lerp
toward the axis, over ℚ. -/
theorem lerpHalf_sq_contract (x z t : ℚ) (ht0 : 0 < t) (ht1 : t ≤ 1)
    (hxz : ¬(x = 0 ∧ z = 0)) :
    (lerp x 0 (t * 0.5)) ^ 2 + (lerp z 0 (t * 0.5)) ^ 2 < x ^ 2 + z ^ 2 := by
  have hpos : 0 < x ^ 2 + z ^ 2 := by
    rcases not_and_or.mp hxz with hx | hz
    · have h1 : 0 < x ^ 2 := by positivity
      nlinarith [sq_nonneg z]
    · have h1 : 0 < z ^ 2 := by positivity
      nlinarith [sq_nonneg x]
  have hs : 0 < t * 0.5 * (2 - t * 0.5) := by nlinarith
  have key : (lerp x 0 (t * 0.5)) ^ 2 + (lerp z 0 (t * 0.5)) ^ 2
      = (x ^ 2 + z ^ 2) * (1 - t * 0.5) ^ 2 := by
    simp only [lerp]
    ring
  rw [key]
  nlinarith [mul_pos hpos hs]

/-- Claim C8 (amended): while the fountain override is active, one tick
with positive `deltaTime` strictly decreases the horizontal distance
from the vertical axis — provided that distance is nonzero; an object
already exactly on the axis stays there. -/
theorem claim8_fountain_contraction (tg : VoxelPosTargets) (cfg : OrnConfig)
    (cur pos : Vec3) (d : ℚ) (hd : 0 < d) :
    (cur.y < -2 → ¬(cur.x = 0 ∧ cur.z = 0) →
      Real.sqrt (((voxelTickPos SCATTERED tg cur d).x : ℝ) ^ 2
          + ((voxelTickPos SCATTERED tg cur d).z : ℝ) ^ 2)
        < Real.sqrt ((cur.x : ℝ) ^ 2 + (cur.z : ℝ) ^ 2))
    ∧ (pos.y < -1 → ¬(pos.x = 0 ∧ pos.z = 0) →
      Real.sqrt (((ornTickPos SCATTERED cfg pos d).x : ℝ) ^ 2
          + ((ornTickPos SCATTERED cfg pos d).z : ℝ) ^ 2)
        < Real.sqrt ((pos.x : ℝ) ^ 2 + (pos.z : ℝ) ^ 2)) := by
  constructor
  · intro hy hxz
    have hstep0 : 0 < voxelStep d := lt_min (by norm_num) (by nlinarith)
    have htick : voxelTickPos SCATTERED tg cur d =
        ⟨lerp cur.x 0 (voxelStep d * 0.5), lerp cur.y (voxelTargetPos tg SCATTERED).y (voxelStep d),
         lerp cur.z 0 (voxelStep d * 0.5)⟩ := by
      simp only [voxelTickPos]
      rw [if_pos ⟨by trivial, hy⟩]
    have hx : (voxelTickPos SCATTERED tg cur d).x = lerp cur.x 0 (voxelStep d * 0.5) := by
      rw [htick]
    have hz : (voxelTickPos SCATTERED tg cur d).z = lerp cur.z 0 (voxelStep d * 0.5) := by
      rw [htick]
    have hq := lerpHalf_sq_contract cur.x cur.z (voxelStep d) hstep0 (min_le_left _ _) hxz
    rw [hx, hz]
    apply Real.sqrt_lt_sqrt (by positivity)
    exact_mod_cast hq
  · intro hy hxz
    have hstep0 : 0 < ornStep d := lt_min (by norm_num) (by nlinarith)
    have htick : ornTickPos SCATTERED cfg pos d =
        ⟨lerp pos.x 0 (ornStep d * 0.5), lerp pos.y (ornTargetPos SCATTERED cfg).y (ornStep d),
         lerp pos.z 0 (ornStep d * 0.5)⟩ := by
      simp only [ornTickPos]
      rw [if_pos ⟨by trivial, hy⟩]
    have hx : (ornTickPos SCATTERED cfg pos d).x = lerp pos.x 0 (ornStep d * 0.5) := by
      rw [htick]
    have hz : (ornTickPos SCATTERED cfg pos d).z = lerp pos.z 0 (ornStep d * 0.5) := by
      rw [htick]
    have hq := lerpHalf_sq_contract pos.x pos.z (ornStep d) hstep0 (min_le_left _ _) hxz
    rw [hx, hz]
    apply Real.sqrt_lt_sqrt (by positivity)
    exact_mod_cast hq

/-- Counterexample to C8 as stated: an object exactly on the vertical
axis at `(0, -3, 0)`, below the threshold in mode SCATTERED, keeps
horizontal distance `0` after a tick with positive `deltaTime` — the
distance does not strictly decrease. -/
theorem claim8_counterexample :
    ¬ (Real.sqrt (((voxelTickPos SCATTERED tgC ⟨0, -3, 0⟩ (1/10)).x : ℝ) ^ 2
          + ((voxelTickPos SCATTERED tgC ⟨0, -3, 0⟩ (1/10)).z : ℝ) ^ 2)
        < Real.sqrt ((((0 : ℚ)) : ℝ) ^ 2 + (((0 : ℚ)) : ℝ) ^ 2)) := by
  have hx : (voxelTickPos SCATTERED tgC ⟨0, -3, 0⟩ (1/10)).x = 0 := by
    simp only [voxelTickPos]
    rw [if_pos ⟨by trivial, by norm_num⟩]
    simp [lerp]
  have hz : (voxelTickPos SCATTERED tgC ⟨0, -3, 0⟩ (1/10)).z = 0 := by
    simp only [voxelTickPos]
    rw [if_pos ⟨by trivial, by norm_num⟩]
    simp [lerp]
  rw [hx, hz]
  simp

/-- Witness for C8 (amended): a concrete off-axis object below the
threshold strictly approaches the axis in one tick. -/
theorem claim8_fountain_contraction_witness :
    Real.sqrt (((voxelTickPos SCATTERED tgC ⟨3, -3, 4⟩ 1).x : ℝ) ^ 2
        + ((voxelTickPos SCATTERED tgC ⟨3, -3, 4⟩ 1).z : ℝ) ^ 2)
      < Real.sqrt ((((3 : ℚ)) : ℝ) ^ 2 + (((4 : ℚ)) : ℝ) ^ 2) :=
  (claim8_fountain_contraction tgC cfgC ⟨3, -3, 4⟩ ⟨0, 0, 0⟩ 1 (by norm_num)).1
    (by norm_num) (by norm_num)

/-! ## Claims about the mode orchestrator -/

theorem runEffect_cases (s : OState) :
    (s.req = INITIAL ∧ runEffect s =
      { s with internal := INITIAL, timer := some (s.now + 500, TimerAct.closeLid) })
    ∨ (s.req ≠ INITIAL ∧ s.internal = INITIAL ∧ runEffect s =
      { s with lid := true, timer := some (s.now + 350, TimerAct.setInternal s.req) })
    ∨ (s.req ≠ INITIAL ∧ s.internal ≠ INITIAL ∧ runEffect s =
      { s with internal := s.req, lid := true, timer := none }) := by
  by_cases h1 : s.req = INITIAL
  · exact Or.inl ⟨h1, by simp [runEffect, h1]⟩
  · by_cases h2 : s.internal = INITIAL
    · exact Or.inr (Or.inl ⟨h1, h2, by simp [runEffect, h1, h2]⟩)
    · exact Or.inr (Or.inr ⟨h1, h2, by simp [runEffect, h1, h2]⟩)

/-- Claim C7: in every orchestrator state reachable from the
session-start state by requested-mode changes, time passing and timer
firings, a non-INITIAL internal mode implies the lid is open.  The code
maintains this with no exception at all, which in particular covers the
deliberate lag windows. -/
theorem claim7_lid_open_invariant :
    ∀ s : OState, OReach initState s → s.internal ≠ INITIAL → s.lid = true := by
  have pres : ∀ a b : OState,
      ((∀ d, a.timer = some (d, TimerAct.closeLid) → a.internal = INITIAL)
        ∧ (a.internal ≠ INITIAL → a.lid = true)) →
      OStep a b →
      ((∀ d, b.timer = some (d, TimerAct.closeLid) → b.internal = INITIAL)
        ∧ (b.internal ≠ INITIAL → b.lid = true)) := by
    rintro a b ⟨h1, h2⟩ hstep
    cases hstep with
    | setReq m hm =>
        rcases runEffect_cases { a with req := m } with ⟨hq, he⟩ | ⟨hq, hi, he⟩ | ⟨hq, hi, he⟩ <;>
          rw [he]
        · exact ⟨fun d hd => rfl, fun h => absurd rfl h⟩
        · exact ⟨fun d hd => by simp at hd, fun h => absurd hi h⟩
        · exact ⟨fun d hd => by simp at hd, fun h => rfl⟩
    | advance dt =>
        exact ⟨fun d hd => h1 d hd, h2⟩
    | fire d act ht hle =>
        cases act with
        | closeLid =>
            exact ⟨fun d' hd' => by simp [applyTimer] at hd', fun h => absurd (h1 d ht) h⟩
        | setInternal m =>
            show (∀ d', (runEffect { a with internal := m, timer := none }).timer
                  = some (d', TimerAct.closeLid) →
                (runEffect { a with internal := m, timer := none }).internal = INITIAL)
              ∧ ((runEffect { a with internal := m, timer := none }).internal ≠ INITIAL →
                (runEffect { a with internal := m, timer := none }).lid = true)
            rcases runEffect_cases { a with internal := m, timer := none } with
              ⟨hq, he⟩ | ⟨hq, hi, he⟩ | ⟨hq, hi, he⟩ <;> rw [he]
            · exact ⟨fun d' hd' => rfl, fun h => absurd rfl h⟩
            · exact ⟨fun d' hd' => by simp at hd', fun h => absurd hi h⟩
            · exact ⟨fun d' hd' => by simp at hd', fun h => rfl⟩
  intro s hr hni
  refine (oreach_invariant pres hr ⟨?_, ?_⟩).2 hni
  · intro d hd
    exact Option.noConfusion hd
  · intro h
    exact absurd rfl h

/-- Witness for C7: a concrete three-step run reaching an open-lid
SCATTERED state. -/
theorem claim7_lid_open_invariant_witness :
    OReach initState demoS3 ∧ demoS3.lid = true := by
  have h1 : OStep initState demoS1 := OStep.setReq initState SCATTERED (by decide)
  have h2 : OStep demoS1 demoS2 := OStep.advance demoS1 350
  have h3 : OStep demoS2 demoS3 :=
    OStep.fire demoS2 350 (TimerAct.setInternal SCATTERED) (by decide) (by decide)
  have hr : OReach initState demoS3 :=
    Relation.ReflTransGen.tail (Relation.ReflTransGen.tail (Relation.ReflTransGen.single h1) h2) h3
  exact ⟨hr, claim7_lid_open_invariant demoS3 hr (by decide)⟩

/-- Claim C5: when the requested mode changes to INITIAL, the internal
mode becomes INITIAL immediately while the lid stays open; in every
continuation the lid is closed only once at least 500 ms have elapsed
since the request, and there is a continuation closing it exactly at
500 ms. -/
theorem claim5_closing_sequence (s s0 : OState) (hlid : s.lid = true)
    (hs0 : s0 = runEffect { s with req := INITIAL }) :
    s0.internal = INITIAL
    ∧ s0.lid = true
    ∧ (∀ u, OReach s0 u → u.lid = false → s.now + 500 ≤ u.now)
    ∧ (∃ u, OReach s0 u ∧ u.now = s.now + 500 ∧ u.lid = false) := by
  have he : runEffect { s with req := INITIAL } =
      { s with req := INITIAL
               internal := INITIAL
               timer := some (s.now + 500, TimerAct.closeLid) } := by
    simp [runEffect]
  rw [he] at hs0
  subst hs0
  have pres : ∀ a b : OState,
      (s.now ≤ a.now ∧ (a.lid = false → s.now + 500 ≤ a.now)
        ∧ (∀ d, a.timer = some (d, TimerAct.closeLid) → s.now + 500 ≤ d)) →
      OStep a b →
      (s.now ≤ b.now ∧ (b.lid = false → s.now + 500 ≤ b.now)
        ∧ (∀ d, b.timer = some (d, TimerAct.closeLid) → s.now + 500 ≤ d)) := by
    rintro a b ⟨h1, h2, h3⟩ hstep
    cases hstep with
    | setReq m hm =>
        rcases runEffect_cases { a with req := m } with ⟨hq, heq⟩ | ⟨hq, hi, heq⟩ | ⟨hq, hi, heq⟩ <;>
          rw [heq]
        · refine ⟨h1, fun h => h2 h, fun d hd => ?_⟩
          have hd2 : (some (a.now + 500, TimerAct.closeLid) : Option (ℕ × TimerAct))
              = some (d, TimerAct.closeLid) := hd
          have : a.now + 500 = d := by simpa using hd2
          omega
        · exact ⟨h1, fun h => by simp at h, fun d hd => by simp at hd⟩
        · exact ⟨h1, fun h => by simp at h, fun d hd => by simp at hd⟩
    | advance dt =>
        refine ⟨?_, fun h => ?_, fun d hd => h3 d hd⟩
        · show s.now ≤ a.now + dt
          omega
        · have := h2 h
          show s.now + 500 ≤ a.now + dt
          omega
    | fire d act ht hle =>
        cases act with
        | closeLid =>
            refine ⟨h1, fun _ => ?_, fun d' hd' => by simp [applyTimer] at hd'⟩
            have := h3 d ht
            show s.now + 500 ≤ a.now
            omega
        | setInternal m =>
            show s.now ≤ (runEffect { a with internal := m, timer := none }).now
              ∧ ((runEffect { a with internal := m, timer := none }).lid = false →
                  s.now + 500 ≤ (runEffect { a with internal := m, timer := none }).now)
              ∧ (∀ d', (runEffect { a with internal := m, timer := none }).timer
                    = some (d', TimerAct.closeLid) → s.now + 500 ≤ d')
            rcases runEffect_cases { a with internal := m, timer := none } with
              ⟨hq, heq⟩ | ⟨hq, hi, heq⟩ | ⟨hq, hi, heq⟩ <;> rw [heq]
            · refine ⟨h1, fun h => h2 h, fun d' hd' => ?_⟩
              have hd2 : (some (a.now + 500, TimerAct.closeLid) : Option (ℕ × TimerAct))
                  = some (d', TimerAct.closeLid) := hd'
              have : a.now + 500 = d' := by simpa using hd2
              omega
            · exact ⟨h1, fun h => by simp at h, fun d' hd' => by simp at hd'⟩
            · exact ⟨h1, fun h => by simp at h, fun d' hd' => by simp at hd'⟩
  have base : s.now ≤ s.now ∧ (s.lid = false → s.now + 500 ≤ s.now)
      ∧ (∀ d, (some (s.now + 500, TimerAct.closeLid) : Option (ℕ × TimerAct))
          = some (d, TimerAct.closeLid) → s.now + 500 ≤ d) := by
    refine ⟨le_refl _, fun h => absurd h (by simp [hlid]), fun d hd => ?_⟩
    have : s.now + 500 = d := by simpa using hd
    omega
  refine ⟨rfl, hlid, ?_, ?_⟩
  · intro u hu hfalse
    exact ((oreach_invariant pres hu base).2.1) hfalse
  · refine ⟨applyTimer
        { s with req := INITIAL
                 internal := INITIAL
                 timer := some (s.now + 500, TimerAct.closeLid)
                 now := s.now + 500 }
        TimerAct.closeLid, ?_, rfl, rfl⟩
    have st1 : OStep
        { s with req := INITIAL
                 internal := INITIAL
                 timer := some (s.now + 500, TimerAct.closeLid) }
        { s with req := INITIAL
                 internal := INITIAL
                 timer := some (s.now + 500, TimerAct.closeLid)
                 now := s.now + 500 } :=
      OStep.advance _ 500
    have st2 : OStep
        { s with req := INITIAL
                 internal := INITIAL
                 timer := some (s.now + 500, TimerAct.closeLid)
                 now := s.now + 500 }
        (applyTimer
          { s with req := INITIAL
                   internal := INITIAL
                   timer := some (s.now + 500, TimerAct.closeLid)
                   now := s.now + 500 }
          TimerAct.closeLid) :=
      OStep.fire _ (s.now + 500) TimerAct.closeLid rfl (le_refl _)
    exact Relation.ReflTransGen.tail (Relation.ReflTransGen.single st1) st2

/-- Witness for C5: the spec's closing scenario, starting from
`requestedMode = TREE, internalMode = TREE, lidOpen = true` at time 0. -/
theorem claim5_closing_sequence_witness :
    (runEffect { (⟨TREE, TREE, true, none, 0⟩ : OState) with req := INITIAL }).internal = INITIAL
    ∧ ∃ u, OReach (runEffect { (⟨TREE, TREE, true, none, 0⟩ : OState) with req := INITIAL }) u
        ∧ u.now = (⟨TREE, TREE, true, none, 0⟩ : OState).now + 500 ∧ u.lid = false := by
  have h := claim5_closing_sequence ⟨TREE, TREE, true, none, 0⟩
    (runEffect { (⟨TREE, TREE, true, none, 0⟩ : OState) with req := INITIAL }) rfl rfl
  exact ⟨h.1, h.2.2.2⟩

/-- Claim C4: a request for a non-INITIAL mode opens the lid at once;
from a closed (INITIAL) internal mode the internal mode stays INITIAL
for at least 350 ms in every continuation and can become the requested
mode exactly at 350 ms, while from an already-open internal mode the
switch happens immediately. -/
theorem claim4_opening_sequence (s s0 : OState) (m : AppMode) (hm : m ≠ INITIAL)
    (hs0 : s0 = runEffect { s with req := m }) :
    s0.lid = true
    ∧ (s.internal ≠ INITIAL → s0.internal = m)
    ∧ (s.internal = INITIAL →
        s0.internal = INITIAL
        ∧ (∀ u, OReach s0 u → u.internal ≠ INITIAL → s.now + 350 ≤ u.now)
        ∧ (∃ u, OReach s0 u ∧ u.now = s.now + 350 ∧ u.internal = m)) := by
  have pres : ∀ a b : OState,
      (s.now ≤ a.now ∧ (a.internal ≠ INITIAL → s.now + 350 ≤ a.now)
        ∧ (∀ d mm, a.timer = some (d, TimerAct.setInternal mm) → s.now + 350 ≤ d)) →
      OStep a b →
      (s.now ≤ b.now ∧ (b.internal ≠ INITIAL → s.now + 350 ≤ b.now)
        ∧ (∀ d mm, b.timer = some (d, TimerAct.setInternal mm) → s.now + 350 ≤ d)) := by
    rintro a b ⟨h1, h2, h3⟩ hstep
    cases hstep with
    | setReq m' hm' =>
        rcases runEffect_cases { a with req := m' } with ⟨hq, heq⟩ | ⟨hq, hi2, heq⟩ | ⟨hq, hi2, heq⟩ <;>
          rw [heq]
        · exact ⟨h1, fun h => absurd rfl h, fun d mm hd => by simp at hd⟩
        · refine ⟨h1, fun h => absurd hi2 h, fun d mm hd => ?_⟩
          have hd2 : (some (a.now + 350, TimerAct.setInternal m') : Option (ℕ × TimerAct))
              = some (d, TimerAct.setInternal mm) := hd
          simp only [Option.some.injEq, Prod.mk.injEq] at hd2
          obtain ⟨hd3, -⟩ := hd2
          omega
        · exact ⟨h1, fun _ => h2 hi2, fun d mm hd => by simp at hd⟩
    | advance dt =>
        refine ⟨?_, fun h => ?_, fun d mm hd => h3 d mm hd⟩
        · show s.now ≤ a.now + dt
          omega
        · have := h2 h
          show s.now + 350 ≤ a.now + dt
          omega
    | fire d act ht hle =>
        cases act with
        | closeLid =>
            exact ⟨h1, fun h => h2 h, fun d' mm hd' => by simp [applyTimer] at hd'⟩
        | setInternal mm =>
            have hd0 := h3 d mm ht
            have hnow : s.now + 350 ≤ a.now := le_trans hd0 hle
            show s.now ≤ (runEffect { a with internal := mm, timer := none }).now
              ∧ ((runEffect { a with internal := mm, timer := none }).internal ≠ INITIAL →
                  s.now + 350 ≤ (runEffect { a with internal := mm, timer := none }).now)
              ∧ (∀ d' mm', (runEffect { a with internal := mm, timer := none }).timer
                    = some (d', TimerAct.setInternal mm') → s.now + 350 ≤ d')
            rcases runEffect_cases { a with internal := mm, timer := none } with
              ⟨hq, heq⟩ | ⟨hq, hi2, heq⟩ | ⟨hq, hi2, heq⟩ <;> rw [heq]
            · exact ⟨h1, fun _ => hnow, fun d' mm' hd' => by simp at hd'⟩
            · refine ⟨h1, fun _ => hnow, fun d' mm' hd' => ?_⟩
              have hd2 : (some (a.now + 350, TimerAct.setInternal a.req) : Option (ℕ × TimerAct))
                  = some (d', TimerAct.setInternal mm') := hd'
              simp only [Option.some.injEq, Prod.mk.injEq] at hd2
              obtain ⟨hd3, -⟩ := hd2
              omega
            · exact ⟨h1, fun _ => hnow, fun d' mm' hd' => by simp at hd'⟩
  subst hs0
  rcases runEffect_cases { s with req := m } with ⟨hq, he⟩ | ⟨hq, hi, he⟩ | ⟨hq, hi, he⟩
  · exact absurd hq hm
  · rw [he]
    refine ⟨rfl, fun hni => absurd hi hni, fun _ => ⟨hi, ?_, ?_⟩⟩
    · intro u hu hni
      have base : s.now ≤ s.now ∧ (s.internal ≠ INITIAL → s.now + 350 ≤ s.now)
          ∧ (∀ d mm, (some (s.now + 350, TimerAct.setInternal m) : Option (ℕ × TimerAct))
              = some (d, TimerAct.setInternal mm) → s.now + 350 ≤ d) := by
        refine ⟨le_refl _, fun h => absurd hi h, fun d mm hd => ?_⟩
        simp only [Option.some.injEq, Prod.mk.injEq] at hd
        obtain ⟨hd3, -⟩ := hd
        omega
      exact (oreach_invariant pres hu base).2.1 hni
    · refine ⟨applyTimer
          { s with req := m
                   lid := true
                   timer := some (s.now + 350, TimerAct.setInternal m)
                   now := s.now + 350 }
          (TimerAct.setInternal m), ?_, ?_, ?_⟩
      · have st1 : OStep
            { s with req := m
                     lid := true
                     timer := some (s.now + 350, TimerAct.setInternal m) }
            { s with req := m
                     lid := true
                     timer := some (s.now + 350, TimerAct.setInternal m)
                     now := s.now + 350 } :=
          OStep.advance _ 350
        have st2 : OStep
            { s with req := m
                     lid := true
                     timer := some (s.now + 350, TimerAct.setInternal m)
                     now := s.now + 350 }
            (applyTimer
              { s with req := m
                       lid := true
                       timer := some (s.now + 350, TimerAct.setInternal m)
                       now := s.now + 350 }
              (TimerAct.setInternal m)) :=
          OStep.fire _ (s.now + 350) (TimerAct.setInternal m) rfl (le_refl _)
        exact Relation.ReflTransGen.tail (Relation.ReflTransGen.single st1) st2
      · show (runEffect
            { s with req := m
                     lid := true
                     internal := m
                     timer := none
                     now := s.now + 350 }).now = s.now + 350
        rcases runEffect_cases
            { s with req := m
                     lid := true
                     internal := m
                     timer := none
                     now := s.now + 350 } with ⟨hq2, he2⟩ | ⟨hq2, hi2, he2⟩ | ⟨hq2, hi2, he2⟩
        · exact absurd hq2 hm
        · exact absurd hi2 hm
        · rw [he2]
      · show (runEffect
            { s with req := m
                     lid := true
                     internal := m
                     timer := none
                     now := s.now + 350 }).internal = m
        rcases runEffect_cases
            { s with req := m
                     lid := true
                     internal := m
                     timer := none
                     now := s.now + 350 } with ⟨hq2, he2⟩ | ⟨hq2, hi2, he2⟩ | ⟨hq2, hi2, he2⟩
        · exact absurd hq2 hm
        · exact absurd hi2 hm
        · rw [he2]
  · rw [he]
    exact ⟨rfl, fun _ => rfl, fun hini => absurd hini hi⟩

/-- Witness for C4: the spec's opening scenario from the session-start
state, requesting SCATTERED. -/
theorem claim4_opening_sequence_witness :
    (runEffect { initState with req := SCATTERED }).lid = true
    ∧ (runEffect { initState with req := SCATTERED }).internal = INITIAL := by
  have h := claim4_opening_sequence initState (runEffect { initState with req := SCATTERED })
    SCATTERED (by decide) rfl
  exact ⟨h.1, (h.2.2 rfl).1⟩

/-- Claim C6: a pending delayed action is cancelled and superseded when
the requested mode changes again before it fires: after requesting
SCATTERED (arming a 350 ms timer) and then TREE `dt < 350` ms later, the
single pending timer carries TREE; in every continuation without further
requests the internal mode never becomes SCATTERED, and firing the timer
at its deadline yields internal mode TREE. -/
theorem claim6_timer_supersession (s s1 s2 : OState) (dt : ℕ) (_hdt : dt < 350)
    (hint : s.internal = INITIAL)
    (hs1 : s1 = runEffect { s with req := SCATTERED })
    (hs2 : s2 = runEffect { { s1 with now := s1.now + dt } with req := TREE }) :
    s1.timer = some (s.now + 350, TimerAct.setInternal SCATTERED)
    ∧ s2.timer = some (s.now + dt + 350, TimerAct.setInternal TREE)
    ∧ (∀ u, TimerOnlyReach s2 u → u.internal ≠ SCATTERED)
    ∧ (∃ u, TimerOnlyReach s2 u ∧ u.now = s.now + dt + 350 ∧ u.internal = TREE) := by
  have he1 : runEffect { s with req := SCATTERED } =
      { s with req := SCATTERED
               lid := true
               timer := some (s.now + 350, TimerAct.setInternal SCATTERED) } := by
    simp [runEffect, hint]
  rw [he1] at hs1
  subst hs1
  have he2 : runEffect
      { s with req := TREE
               lid := true
               timer := some (s.now + 350, TimerAct.setInternal SCATTERED)
               now := s.now + dt } =
      { s with req := TREE
               lid := true
               internal := s.internal
               timer := some (s.now + dt + 350, TimerAct.setInternal TREE)
               now := s.now + dt } := by
    simp [runEffect, hint]
  rw [he2] at hs2
  subst hs2
  have pres : ∀ a b : OState,
      (a.req = TREE ∧ a.internal ≠ SCATTERED
        ∧ (∀ d mm, a.timer = some (d, TimerAct.setInternal mm) → mm = TREE)) →
      TimerOnlyStep a b →
      (b.req = TREE ∧ b.internal ≠ SCATTERED
        ∧ (∀ d mm, b.timer = some (d, TimerAct.setInternal mm) → mm = TREE)) := by
    rintro a b ⟨h1, h2, h3⟩ hstep
    cases hstep with
    | advance dt' =>
        exact ⟨h1, h2, fun d mm hd => h3 d mm hd⟩
    | fire d act ht hle =>
        cases act with
        | closeLid =>
            exact ⟨h1, h2, fun d' mm hd' => by simp [applyTimer] at hd'⟩
        | setInternal mm =>
            have hmm : mm = TREE := h3 d mm ht
            subst hmm
            have he3 : runEffect { a with internal := TREE, timer := none } =
                { a with internal := a.req
                         lid := true
                         timer := none } := by
              rcases runEffect_cases { a with internal := TREE, timer := none } with
                ⟨hq2, he⟩ | ⟨hq2, hi2, he⟩ | ⟨hq2, hi2, he⟩
              · have hq3 : a.req = INITIAL := hq2
                rw [h1] at hq3
                exact absurd hq3 (by simp)
              · exact absurd hi2 (by simp)
              · rw [he]
            show ((runEffect { a with internal := TREE, timer := none }).req = TREE)
              ∧ ((runEffect { a with internal := TREE, timer := none }).internal ≠ SCATTERED)
              ∧ (∀ d' mm', (runEffect { a with internal := TREE, timer := none }).timer
                  = some (d', TimerAct.setInternal mm') → mm' = TREE)
            rw [he3]
            refine ⟨h1, ?_, fun d' mm' hd' => by simp at hd'⟩
            show a.req ≠ SCATTERED
            rw [h1]
            simp
  have base :
      ({ s with req := TREE
                lid := true
                internal := s.internal
                timer := some (s.now + dt + 350, TimerAct.setInternal TREE)
                now := s.now + dt } : OState).req = TREE
      ∧ ({ s with req := TREE
                  lid := true
                  internal := s.internal
                  timer := some (s.now + dt + 350, TimerAct.setInternal TREE)
                  now := s.now + dt } : OState).internal ≠ SCATTERED
      ∧ (∀ d mm, ({ s with req := TREE
                           lid := true
                           internal := s.internal
                           timer := some (s.now + dt + 350, TimerAct.setInternal TREE)
                           now := s.now + dt } : OState).timer
          = some (d, TimerAct.setInternal mm) → mm = TREE) := by
    refine ⟨rfl, ?_, fun d mm hd => ?_⟩
    · show s.internal ≠ SCATTERED
      rw [hint]
      simp
    · have hd2 : (some (s.now + dt + 350, TimerAct.setInternal TREE) : Option (ℕ × TimerAct))
          = some (d, TimerAct.setInternal mm) := hd
      simp only [Option.some.injEq, Prod.mk.injEq, TimerAct.setInternal.injEq] at hd2
      exact hd2.2.symm
  refine ⟨rfl, rfl, ?_, ?_⟩
  · intro u hu
    exact (timerOnlyReach_invariant pres hu base).2.1
  · refine ⟨applyTimer
        { s with req := TREE
                 lid := true
                 internal := s.internal
                 timer := some (s.now + dt + 350, TimerAct.setInternal TREE)
                 now := s.now + dt + 350 }
        (TimerAct.setInternal TREE), ?_, ?_, ?_⟩
    · have st1 : TimerOnlyStep
          { s with req := TREE
                   lid := true
                   internal := s.internal
                   timer := some (s.now + dt + 350, TimerAct.setInternal TREE)
                   now := s.now + dt }
          { s with req := TREE
                   lid := true
                   internal := s.internal
                   timer := some (s.now + dt + 350, TimerAct.setInternal TREE)
                   now := s.now + dt + 350 } :=
        TimerOnlyStep.advance _ 350
      have st2 : TimerOnlyStep
          { s with req := TREE
                   lid := true
                   internal := s.internal
                   timer := some (s.now + dt + 350, TimerAct.setInternal TREE)
                   now := s.now + dt + 350 }
          (applyTimer
            { s with req := TREE
                     lid := true
                     internal := s.internal
                     timer := some (s.now + dt + 350, TimerAct.setInternal TREE)
                     now := s.now + dt + 350 }
            (TimerAct.setInternal TREE)) :=
        TimerOnlyStep.fire _ (s.now + dt + 350) (TimerAct.setInternal TREE) rfl (le_refl _)
      exact Relation.ReflTransGen.tail (Relation.ReflTransGen.single st1) st2
    · show (runEffect
          { s with req := TREE
                   lid := true
                   internal := TREE
                   timer := none
                   now := s.now + dt + 350 }).now = s.now + dt + 350
      rcases runEffect_cases
          { s with req := TREE
                   lid := true
                   internal := TREE
                   timer := none
                   now := s.now + dt + 350 } with ⟨hq2, he⟩ | ⟨hq2, hi2, he⟩ | ⟨hq2, hi2, he⟩
      · exact absurd hq2 (by simp)
      · exact absurd hi2 (by simp)
      · rw [he]
    · show (runEffect
          { s with req := TREE
                   lid := true
                   internal := TREE
                   timer := none
                   now := s.now + dt + 350 }).internal = TREE
      rcases runEffect_cases
          { s with req := TREE
                   lid := true
                   internal := TREE
                   timer := none
                   now := s.now + dt + 350 } with ⟨hq2, he⟩ | ⟨hq2, hi2, he⟩ | ⟨hq2, hi2, he⟩
      · exact absurd hq2 (by simp)
      · exact absurd hi2 (by simp)
      · rw [he]

/-- Witness for C6: the spec's debounce scenario — SCATTERED then TREE
100 ms later, from the session-start state. -/
theorem claim6_timer_supersession_witness :
    (runEffect { { runEffect { initState with req := SCATTERED } with
        now := (runEffect { initState with req := SCATTERED }).now + 100 } with
        req := TREE }).timer
      = some (initState.now + 100 + 350, TimerAct.setInternal TREE)
    ∧ ∃ u, TimerOnlyReach
          (runEffect { { runEffect { initState with req := SCATTERED } with
            now := (runEffect { initState with req := SCATTERED }).now + 100 } with
            req := TREE }) u
        ∧ u.now = initState.now + 100 + 350 ∧ u.internal = TREE := by
  have h := claim6_timer_supersession initState
    (runEffect { initState with req := SCATTERED })
    (runEffect { { runEffect { initState with req := SCATTERED } with
      now := (runEffect { initState with req := SCATTERED }).now + 100 } with
      req := TREE })
    100 (by norm_num) rfl rfl rfl
  exact ⟨h.2.1, h.2.2.2⟩

/-! ## Claims about the golden-angle placement generator -/

theorem ornRadius_affine (k : ℕ) : ornRadius k = 7.4 - (6.8 / 16) * (ornY k + 6) := by
  have hy : ornY k + 6 = 1 + (k : ℝ) / 90 * 12 := by
    simp only [ornY, ornCount, Nat.cast_ofNat]
    ring
  have h0 : (0 : ℝ) ≤ (ornY k + 6) / 16 := by
    rw [hy]
    positivity
  simp only [ornRadius, coneRadiusAt, max_eq_right h0]
  ring

theorem ornY_strictMono {i j : ℕ} (hij : i < j) : ornY i < ornY j := by
  have hcast : (i : ℝ) < (j : ℝ) := by exact_mod_cast hij
  simp only [ornY, ornCount, Nat.cast_ofNat]
  nlinarith

/-- Claim C9: for every generated ornament index `i ≥ 1`, the TREE
placement angle is `i` times the golden angle `π(3 − √5) ≈ 2.39996`, the
placement radius is an affine function of the height that strictly
shrinks from base to tip, the TREE yaw is the negation of the placement
angle, and star, snowflake and goldTree ornaments get an added
quarter-turn yaw. -/
theorem claim9_golden_angle_placement (i : ℕ) (_h1 : 1 ≤ i) (_h2 : i < 90) :
    ornTheta i = (i : ℝ) * (Real.pi * (3 - Real.sqrt 5))
    ∧ (2.399 < goldenAngle ∧ goldenAngle < 2.4)
    ∧ ornRadius i = 7.4 - (6.8 / 16) * (ornY i + 6)
    ∧ (∀ j, j < 90 → i < j → ornRadius j < ornRadius i)
    ∧ (∀ t : OrnType, (t = OrnType.star ∨ t = OrnType.snowflake ∨ t = OrnType.goldTree) →
        ornTreeYaw i t = -(ornTheta i) + Real.pi / 2)
    ∧ (∀ t : OrnType, ¬(t = OrnType.star ∨ t = OrnType.snowflake ∨ t = OrnType.goldTree) →
        ornTreeYaw i t = -(ornTheta i)) := by
  have hs5l : (2.2360679 : ℝ) < Real.sqrt 5 :=
    (Real.lt_sqrt (by norm_num)).mpr (by norm_num)
  have hs5u : Real.sqrt 5 < 2.23607 :=
    (Real.sqrt_lt' (by norm_num)).mpr (by norm_num)
  have hpl : (3.141592 : ℝ) < Real.pi := Real.pi_gt_d6
  have hpu : Real.pi < 3.141593 := Real.pi_lt_d6
  refine ⟨rfl, ⟨?_, ?_⟩, ornRadius_affine i, ?_, ?_, ?_⟩
  · show (2.399 : ℝ) < Real.pi * (3 - Real.sqrt 5)
    nlinarith
  · show Real.pi * (3 - Real.sqrt 5) < 2.4
    nlinarith
  · intro j hj hij
    rw [ornRadius_affine i, ornRadius_affine j]
    have hyij := ornY_strictMono hij
    linarith
  · intro t ht
    rw [ornTreeYaw, ornYawAdjust, if_pos ht]
  · intro t ht
    rw [ornTreeYaw, ornYawAdjust, if_neg ht, add_zero]

/-- Witness for C9: the placement facts at the first decorated index. -/
theorem claim9_golden_angle_placement_witness :
    ((1 : ℕ) ≤ 1 ∧ (1 : ℕ) < 90)
    ∧ ornTheta 1 = ((1 : ℕ) : ℝ) * (Real.pi * (3 - Real.sqrt 5))
    ∧ 2.399 < goldenAngle ∧ goldenAngle < 2.4 := by
  have h := claim9_golden_angle_placement 1 (le_refl 1) (by norm_num)
  exact ⟨⟨le_refl 1, by norm_num⟩, h.1, h.2.1⟩


end HolidayScene
